import Mathlib

/-!
Verification of the process-ninja workflow engine: a shallow embedding of
the process execution state machine (step action endpoint, process
creation, template activation guards) together with theorems about its
transition behaviour, error handling and frame conditions.

The embedding mirrors the three request handlers that own all the
non-trivial logic:

* the step-action handler (POST on a process step): role guard, step
  lookup with its process and template context, the precondition chain,
  and the transactional update of the step instance and the process;
* the process-creation handler (POST on processes): template lookup,
  activation and non-empty-step guards, and materialisation of one step
  instance per template step with the first FORM step auto-completed;
* the template status handler (PATCH on workflow status): activation
  guards for step count and form schema.

Database rows are plain structures; the loaded object graph that the
handlers receive from the store (step with process, template and sibling
steps included) is a `ProcCtx`. Timestamps are naturals, identifiers are
naturals, and fallible handlers return `Except ApiError`.
-/

/-- Workflow step kinds, as in the Prisma enum StepType. -/
inductive StepType where
  | FORM
  | APPROVAL
  | NOTIFICATION
deriving DecidableEq

/-- Step instance statuses, as in the Prisma enum StepStatus. -/
inductive StepStatus where
  | PENDING
  | COMPLETED
  | REJECTED
  | SKIPPED
deriving DecidableEq

/-- Process statuses, as in the Prisma enum ProcessStatus. -/
inductive ProcStatus where
  | PENDING
  | IN_PROGRESS
  | COMPLETED
  | REJECTED
  | CHANGES_REQUESTED
deriving DecidableEq

/-- Workflow template lifecycle statuses. -/
inductive TemplateStatus where
  | DRAFT
  | ACTIVE
  | ARCHIVED
deriving DecidableEq

/-- The action body accepted by the step-action endpoint. -/
inductive StepAction where
  | approve
  | reject
  | request_changes
deriving DecidableEq

/-- User roles relevant to the engine. -/
inductive Role where
  | ADMIN
  | APPROVER
  | USER
deriving DecidableEq

/-- Caller-visible failures, tagged with the handler message. 404 maps
to NotFoundError, 400 to ValidationError, 403 to ForbiddenError. -/
inductive ApiError where
  | NotFoundError (msg : String)
  | ValidationError (msg : String)
  | ForbiddenError (msg : String)
deriving DecidableEq

/-- A template step row: identity, execution order and type, the fields
the engine reads. -/
structure WorkflowStep where
  id : Nat
  stepOrder : Nat
  stepType : StepType
deriving DecidableEq

/-- A workflow template as the engine loads it: status, ordered steps,
and whether a form schema row exists. -/
structure WorkflowTemplate where
  id : Nat
  status : TemplateStatus
  steps : List WorkflowStep
  hasFormSchema : Bool
deriving DecidableEq

/-- A process step instance row, with its workflow step joined in as the
handlers load it. -/
structure StepInstance where
  id : Nat
  workflowStep : WorkflowStep
  status : StepStatus
  actedById : Option Nat
  actedAt : Option Nat
  comments : Option String
deriving DecidableEq

/-- A process instance row. -/
structure ProcessInstance where
  id : Nat
  workflowTemplateId : Nat
  createdById : Nat
  status : ProcStatus
deriving DecidableEq

/-- The loaded context of one process: the process row, its template with
steps, and its step instances — the shape the step-action handler gets
from its findUnique with includes. -/
structure ProcCtx where
  process : ProcessInstance
  template : WorkflowTemplate
  steps : List StepInstance
deriving DecidableEq

/-- Result of a successful step action: the updated process context and
whether the approver pool was notified afterwards. -/
structure ActOk where
  proc : ProcCtx
  notifiedApprovers : Bool
deriving DecidableEq

/-- Look up a step instance by id across the stored processes, returning
it with its owning process context (the step findUnique with its
processInstance include). -/
def findStepCtx : List ProcCtx → Nat → Option (ProcCtx × StepInstance)
  | [], _ => none
  | c :: cs, sid =>
    match c.steps.find? (fun s => s.id == sid) with
    | some s => some (c, s)
    | none => findStepCtx cs sid

/-- The first update of the transaction: the acted step instance gets
status COMPLETED on approve and REJECTED otherwise, plus actor, acted-at
and comments; every other instance is untouched. -/
def applyActionToStep (stepId : Nat) (action : StepAction) (comments : Option String)
    (actorId now : Nat) (s : StepInstance) : StepInstance :=
  if s.id = stepId then
    { s with
      status := if action = StepAction.approve then StepStatus.COMPLETED else StepStatus.REJECTED,
      actedById := some actorId,
      actedAt := some now,
      comments := comments }
  else s

/-- The second update of the transaction in the notification branch: the
next step instance is marked COMPLETED with acted-at set and no other
field touched. -/
def autoCompleteStep (targetId now : Nat) (s : StepInstance) : StepInstance :=
  if s.id = targetId then
    { s with status := StepStatus.COMPLETED, actedAt := some now }
  else s

/-- The transactional body of the step-action handler: update the acted
step, then branch on the action exactly as the source does — approve
looks for the template step at stepOrder + 1, auto-completes a
NOTIFICATION next step and completes the process when nothing follows
it, marks the process IN_PROGRESS for a FORM or APPROVAL next step, and
completes the process when no next step exists; reject and
request_changes set the terminal process status. -/
def runTransaction (ctx : ProcCtx) (stepId currentStepOrder : Nat) (action : StepAction)
    (comments : Option String) (actorId now : Nat) : ProcCtx :=
  let steps1 := ctx.steps.map (applyActionToStep stepId action comments actorId now)
  match action with
  | StepAction.approve =>
    match ctx.template.steps.find? (fun s => s.stepOrder == currentStepOrder + 1) with
    | some nextWorkflowStep =>
      match ctx.steps.find? (fun s => s.workflowStep.stepOrder == currentStepOrder + 1) with
      | some nextStepInstance =>
        if nextWorkflowStep.stepType = StepType.NOTIFICATION then
          let steps2 := steps1.map (autoCompleteStep nextStepInstance.id now)
          match ctx.template.steps.find? (fun s => s.stepOrder == currentStepOrder + 2) with
          | none =>
            { ctx with steps := steps2,
                       process := { ctx.process with status := ProcStatus.COMPLETED } }
          | some _ => { ctx with steps := steps2 }
        else
          { ctx with steps := steps1,
                     process := { ctx.process with status := ProcStatus.IN_PROGRESS } }
      | none => { ctx with steps := steps1 }
    | none =>
      { ctx with steps := steps1,
                 process := { ctx.process with status := ProcStatus.COMPLETED } }
  | StepAction.reject =>
    { ctx with steps := steps1,
               process := { ctx.process with status := ProcStatus.REJECTED } }
  | StepAction.request_changes =>
    { ctx with steps := steps1,
               process := { ctx.process with status := ProcStatus.CHANGES_REQUESTED } }

/-- The step-action endpoint. The handler checks the caller role first,
then loads the step instance with its context and runs the precondition
chain (existence, process match, pending, approval type), then performs
the transaction; afterwards the approver pool is notified exactly when
the action was approve and a template step with stepOrder + 1 and type
APPROVAL exists. -/
def actStep (procs : List ProcCtx) (role : Role) (processId stepId : Nat)
    (action : StepAction) (comments : Option String) (actorId now : Nat) :
    Except ApiError ActOk :=
  if ¬ (role = Role.ADMIN ∨ role = Role.APPROVER) then
    Except.error (ApiError.ForbiddenError "Forbidden")
  else
    match findStepCtx procs stepId with
    | none => Except.error (ApiError.NotFoundError "Step not found")
    | some (ctx, stepInstance) =>
      if ctx.process.id ≠ processId then
        Except.error (ApiError.ValidationError "Step does not belong to this process")
      else if stepInstance.status ≠ StepStatus.PENDING then
        Except.error (ApiError.ValidationError "Step is not pending")
      else if stepInstance.workflowStep.stepType ≠ StepType.APPROVAL then
        Except.error (ApiError.ValidationError "This step type does not support approval actions")
      else
        let k := stepInstance.workflowStep.stepOrder
        Except.ok
          { proc := runTransaction ctx stepId k action comments actorId now,
            notifiedApprovers :=
              match action with
              | StepAction.approve =>
                (ctx.template.steps.find?
                  (fun s => s.stepOrder == k + 1 && s.stepType == StepType.APPROVAL)).isSome
              | _ => false }

/-- Materialise the step instances of a new process, one per template
step in list order: the step at index 0 of type FORM is created
COMPLETED with the creator as actor and acted-at now, every other one
PENDING with no actor and no acted-at. Instance ids are the indices. -/
def mkStepInstances (creatorId now : Nat) : Nat → List WorkflowStep → List StepInstance
  | _, [] => []
  | index, step :: rest =>
    { id := index,
      workflowStep := step,
      status :=
        if index = 0 ∧ step.stepType = StepType.FORM then StepStatus.COMPLETED
        else StepStatus.PENDING,
      actedById :=
        if index = 0 ∧ step.stepType = StepType.FORM then some creatorId else none,
      actedAt :=
        if index = 0 ∧ step.stepType = StepType.FORM then some now else none,
      comments := none } :: mkStepInstances creatorId now (index + 1) rest

/-- The process-creation endpoint: template lookup, the ACTIVE and
non-empty-steps guards in handler order, then the transactional creation
of the IN_PROGRESS process with its step instances. -/
def createProcess (templates : List WorkflowTemplate) (workflowTemplateId : Nat)
    (creatorId now newProcessId : Nat) : Except ApiError ProcCtx :=
  match templates.find? (fun w => w.id == workflowTemplateId) with
  | none => Except.error (ApiError.NotFoundError "Workflow not found")
  | some workflow =>
    if workflow.status ≠ TemplateStatus.ACTIVE then
      Except.error (ApiError.ValidationError "Workflow is not active")
    else if workflow.steps.length = 0 then
      Except.error (ApiError.ValidationError "Workflow has no steps defined")
    else
      Except.ok
        { process :=
            { id := newProcessId,
              workflowTemplateId := workflow.id,
              createdById := creatorId,
              status := ProcStatus.IN_PROGRESS },
          template := workflow,
          steps := mkStepInstances creatorId now 0 workflow.steps }

/-- The template status endpoint: lookup, then — only when the requested
status is ACTIVE — the step-count and form-schema guards, then the
status update. -/
def setTemplateStatus (templates : List WorkflowTemplate) (id : Nat)
    (status : TemplateStatus) : Except ApiError (List WorkflowTemplate) :=
  match templates.find? (fun w => w.id == id) with
  | none => Except.error (ApiError.NotFoundError "Workflow not found")
  | some existingWorkflow =>
    if status = TemplateStatus.ACTIVE ∧ existingWorkflow.steps.length = 0 then
      Except.error (ApiError.ValidationError
        "Workflow must have at least one step to be activated")
    else if status = TemplateStatus.ACTIVE ∧
        (existingWorkflow.steps.any (fun s => s.stepType == StepType.FORM)) = true ∧
        existingWorkflow.hasFormSchema = false then
      Except.error (ApiError.ValidationError
        "Workflow with form step must have a form schema defined")
    else
      Except.ok (templates.map (fun w =>
        if w.id = id then { w with status := status } else w))

/-- Decides that a list of template steps has stepOrder k, k+1, ... in
list order — the contiguity invariant of stored templates. -/
def ordersFrom : Nat → List WorkflowStep → Bool
  | _, [] => true
  | k, s :: rest => s.stepOrder == k && ordersFrom (k + 1) rest

/-- Decides that no two template steps share a stepOrder. -/
def ordersNodup : List WorkflowStep → Bool
  | [] => true
  | s :: rest => rest.all (fun t => t.stepOrder != s.stepOrder) && ordersNodup rest

/-! ## Helper lemmas -/

/-- A successful step lookup returns a stored context, a step instance of
that context, and the instance carries the requested id. -/
theorem findStepCtx_eq (procs : List ProcCtx) (sid : Nat) (ctx : ProcCtx)
    (st : StepInstance) (h : findStepCtx procs sid = some (ctx, st)) :
    ctx ∈ procs ∧ st ∈ ctx.steps ∧ st.id = sid := by
  induction procs with
  | nil => simp [findStepCtx] at h
  | cons c cs ih =>
    unfold findStepCtx at h
    split at h
    case h_1 s heq =>
      have hpair : c = ctx ∧ s = st := by
        have := h
        simp only [Option.some.injEq, Prod.mk.injEq] at this
        exact this
      obtain ⟨rfl, rfl⟩ := hpair
      have hmem := List.mem_of_find?_eq_some heq
      have hid := List.find?_some heq
      simp only [beq_iff_eq] at hid
      exact ⟨List.mem_cons_self _ _, hmem, hid⟩
    case h_2 heq =>
      obtain ⟨h1, h2, h3⟩ := ih h
      exact ⟨List.mem_cons_of_mem _ h1, h2, h3⟩


/-- A caller without an elevated role is rejected before anything else. -/
theorem actStep_err_role (procs : List ProcCtx) (role : Role)
    (processId stepId : Nat) (action : StepAction) (comments : Option String)
    (actorId now : Nat)
    (hrole : ¬ (role = Role.ADMIN ∨ role = Role.APPROVER)) :
    actStep procs role processId stepId action comments actorId now =
      Except.error (ApiError.ForbiddenError "Forbidden") := by
  unfold actStep
  simp [hrole]

/-- An elevated caller with a nonexistent step id gets the not-found
error. -/
theorem actStep_err_notfound (procs : List ProcCtx) (role : Role)
    (processId stepId : Nat) (action : StepAction) (comments : Option String)
    (actorId now : Nat)
    (hrole : role = Role.ADMIN ∨ role = Role.APPROVER)
    (hfind : findStepCtx procs stepId = none) :
    actStep procs role processId stepId action comments actorId now =
      Except.error (ApiError.NotFoundError "Step not found") := by
  unfold actStep
  simp [hrole, hfind]

/-- A step belonging to another process gets the mismatch error. -/
theorem actStep_err_mismatch (procs : List ProcCtx) (role : Role)
    (processId stepId : Nat) (action : StepAction) (comments : Option String)
    (actorId now : Nat) (ctx : ProcCtx) (st : StepInstance)
    (hrole : role = Role.ADMIN ∨ role = Role.APPROVER)
    (hfind : findStepCtx procs stepId = some (ctx, st))
    (hpid : ctx.process.id ≠ processId) :
    actStep procs role processId stepId action comments actorId now =
      Except.error (ApiError.ValidationError
        "Step does not belong to this process") := by
  unfold actStep
  simp [hrole, hfind, hpid]

/-- A non-pending step gets the not-pending error. -/
theorem actStep_err_notpending (procs : List ProcCtx) (role : Role)
    (processId stepId : Nat) (action : StepAction) (comments : Option String)
    (actorId now : Nat) (ctx : ProcCtx) (st : StepInstance)
    (hrole : role = Role.ADMIN ∨ role = Role.APPROVER)
    (hfind : findStepCtx procs stepId = some (ctx, st))
    (hpid : ctx.process.id = processId)
    (hpend : st.status ≠ StepStatus.PENDING) :
    actStep procs role processId stepId action comments actorId now =
      Except.error (ApiError.ValidationError "Step is not pending") := by
  unfold actStep
  simp [hrole, hfind, hpid, hpend]

/-- A pending step of non-approval type gets the type error. -/
theorem actStep_err_type (procs : List ProcCtx) (role : Role)
    (processId stepId : Nat) (action : StepAction) (comments : Option String)
    (actorId now : Nat) (ctx : ProcCtx) (st : StepInstance)
    (hrole : role = Role.ADMIN ∨ role = Role.APPROVER)
    (hfind : findStepCtx procs stepId = some (ctx, st))
    (hpid : ctx.process.id = processId)
    (hpend : st.status = StepStatus.PENDING)
    (htype : st.workflowStep.stepType ≠ StepType.APPROVAL) :
    actStep procs role processId stepId action comments actorId now =
      Except.error (ApiError.ValidationError
        "This step type does not support approval actions") := by
  unfold actStep
  simp [hrole, hfind, hpid, hpend, htype]

/-- Introduction of a successful step action from its preconditions. -/
theorem actStep_ok_intro (procs : List ProcCtx) (role : Role)
    (processId stepId : Nat) (action : StepAction) (comments : Option String)
    (actorId now : Nat) (ctx : ProcCtx) (st : StepInstance)
    (hfind : findStepCtx procs stepId = some (ctx, st))
    (hrole : role = Role.ADMIN ∨ role = Role.APPROVER)
    (hpid : ctx.process.id = processId)
    (hpend : st.status = StepStatus.PENDING)
    (htype : st.workflowStep.stepType = StepType.APPROVAL) :
    actStep procs role processId stepId action comments actorId now =
      Except.ok
        { proc := runTransaction ctx stepId st.workflowStep.stepOrder action
            comments actorId now,
          notifiedApprovers :=
            (match action with
             | StepAction.approve =>
               (ctx.template.steps.find? (fun s =>
                 s.stepOrder == st.workflowStep.stepOrder + 1 &&
                 s.stepType == StepType.APPROVAL)).isSome
             | _ => false) } := by
  unfold actStep
  simp only [hfind, hrole, hpid, hpend, htype]
  simp

/-- Decomposition of a successful step action: every precondition held
and the result is the transaction outcome together with the
approver-notification flag. -/
theorem actStep_ok_decomp (procs : List ProcCtx) (role : Role)
    (processId stepId : Nat) (action : StepAction) (comments : Option String)
    (actorId now : Nat) (r : ActOk) (ctx : ProcCtx) (st : StepInstance)
    (hfind : findStepCtx procs stepId = some (ctx, st))
    (hok : actStep procs role processId stepId action comments actorId now =
      Except.ok r) :
    (role = Role.ADMIN ∨ role = Role.APPROVER) ∧ ctx.process.id = processId ∧
    st.status = StepStatus.PENDING ∧
    st.workflowStep.stepType = StepType.APPROVAL ∧
    r.proc = runTransaction ctx stepId st.workflowStep.stepOrder action
      comments actorId now ∧
    (action = StepAction.approve →
      r.notifiedApprovers = (ctx.template.steps.find? (fun s =>
        s.stepOrder == st.workflowStep.stepOrder + 1 &&
        s.stepType == StepType.APPROVAL)).isSome) ∧
    (action ≠ StepAction.approve → r.notifiedApprovers = false) := by
  by_cases hrole : role = Role.ADMIN ∨ role = Role.APPROVER
  · by_cases hpid : ctx.process.id = processId
    · by_cases hpend : st.status = StepStatus.PENDING
      · by_cases htype : st.workflowStep.stepType = StepType.APPROVAL
        · rw [actStep_ok_intro procs role processId stepId action comments
            actorId now ctx st hfind hrole hpid hpend htype] at hok
          have hr := Except.ok.inj hok
          subst hr
          refine ⟨hrole, hpid, hpend, htype, rfl, ?_, ?_⟩
          · intro ha
            subst ha
            rfl
          · intro ha
            cases action with
            | approve => exact absurd rfl ha
            | reject => rfl
            | request_changes => rfl
        · rw [actStep_err_type procs role processId stepId action comments
            actorId now ctx st hrole hfind hpid hpend htype] at hok
          exact Except.noConfusion hok
      · rw [actStep_err_notpending procs role processId stepId action comments
          actorId now ctx st hrole hfind hpid hpend] at hok
        exact Except.noConfusion hok
    · rw [actStep_err_mismatch procs role processId stepId action comments
        actorId now ctx st hrole hfind hpid] at hok
      exact Except.noConfusion hok
  · rw [actStep_err_role procs role processId stepId action comments
      actorId now hrole] at hok
    exact Except.noConfusion hok

/-- A step instance whose id differs from the acted one passes through
the transactional step update unchanged. -/
theorem mem_map_applyAction_of_ne (steps : List StepInstance) (stepId : Nat)
    (action : StepAction) (comments : Option String) (actorId now : Nat)
    (s : StepInstance) (hs : s ∈ steps) (hne : s.id ≠ stepId) :
    s ∈ steps.map (applyActionToStep stepId action comments actorId now) := by
  have hfix : applyActionToStep stepId action comments actorId now s = s := by
    unfold applyActionToStep
    rw [if_neg hne]
  exact hfix ▸ List.mem_map_of_mem _ hs

/-- The acted step instance is mapped to its updated record. -/
theorem applyAction_self (stepId : Nat) (action : StepAction)
    (comments : Option String) (actorId now : Nat) (s : StepInstance)
    (hid : s.id = stepId) :
    applyActionToStep stepId action comments actorId now s =
      { s with
        status := if action = StepAction.approve then StepStatus.COMPLETED
                  else StepStatus.REJECTED,
        actedById := some actorId, actedAt := some now, comments := comments } := by
  unfold applyActionToStep
  rw [if_pos hid]

/-! ## Concrete fixtures used by witnesses and counterexamples -/

/-- Approval step at order 1. -/
def sA1 : WorkflowStep := { id := 1, stepOrder := 1, stepType := StepType.APPROVAL }

/-- Approval step at order 2. -/
def sA2 : WorkflowStep := { id := 2, stepOrder := 2, stepType := StepType.APPROVAL }

/-- Notification step at order 2. -/
def sN2 : WorkflowStep := { id := 2, stepOrder := 2, stepType := StepType.NOTIFICATION }

/-- Approval step at order 3. -/
def sA3 : WorkflowStep := { id := 3, stepOrder := 3, stepType := StepType.APPROVAL }

/-- Form step at order 1. -/
def sF1 : WorkflowStep := { id := 1, stepOrder := 1, stepType := StepType.FORM }

/-- Active template with two approval steps. -/
def wAA : WorkflowTemplate :=
  { id := 1, status := TemplateStatus.ACTIVE, steps := [sA1, sA2], hasFormSchema := false }

/-- Active template: approval then notification. -/
def wAN : WorkflowTemplate :=
  { id := 2, status := TemplateStatus.ACTIVE, steps := [sA1, sN2], hasFormSchema := false }

/-- Active template: approval, notification, approval. -/
def wANA : WorkflowTemplate :=
  { id := 3, status := TemplateStatus.ACTIVE, steps := [sA1, sN2, sA3], hasFormSchema := false }

/-- Pending instance of the order-1 approval step. -/
def iA1 : StepInstance :=
  { id := 0, workflowStep := sA1, status := StepStatus.PENDING,
    actedById := none, actedAt := none, comments := none }

/-- Pending instance of the order-2 approval step. -/
def iA2 : StepInstance :=
  { id := 1, workflowStep := sA2, status := StepStatus.PENDING,
    actedById := none, actedAt := none, comments := none }

/-- Pending instance of the order-2 notification step. -/
def iN2 : StepInstance :=
  { id := 1, workflowStep := sN2, status := StepStatus.PENDING,
    actedById := none, actedAt := none, comments := none }

/-- Pending instance of the order-3 approval step. -/
def iA3 : StepInstance :=
  { id := 2, workflowStep := sA3, status := StepStatus.PENDING,
    actedById := none, actedAt := none, comments := none }

/-- In-progress process over the two-approval template. -/
def ctxAA : ProcCtx :=
  { process := { id := 7, workflowTemplateId := 1, createdById := 5,
                 status := ProcStatus.IN_PROGRESS },
    template := wAA, steps := [iA1, iA2] }

/-- In-progress process over the approval-notification template. -/
def ctxAN : ProcCtx :=
  { process := { id := 8, workflowTemplateId := 2, createdById := 5,
                 status := ProcStatus.IN_PROGRESS },
    template := wAN, steps := [iA1, iN2] }

/-- In-progress process over the approval-notification-approval template. -/
def ctxANA : ProcCtx :=
  { process := { id := 9, workflowTemplateId := 3, createdById := 5,
                 status := ProcStatus.IN_PROGRESS },
    template := wANA, steps := [iA1, iN2, iA3] }

/-! ## Claim theorems -/

/-- C2: for every successful actStep call with action = reject on a
pending APPROVAL step instance, the acted step instance is set to
REJECTED with the actor identity, acted-at = now and the comments
recorded, the process status is set to REJECTED, and no other step
instance of the process is mutated, regardless of how many later steps
remain. -/
theorem actStep_reject_terminal (procs : List ProcCtx) (role : Role)
    (processId stepId : Nat) (comments : Option String) (actorId now : Nat)
    (r : ActOk) (ctx : ProcCtx) (st : StepInstance)
    (hfind : findStepCtx procs stepId = some (ctx, st))
    (hok : actStep procs role processId stepId StepAction.reject comments
      actorId now = Except.ok r) :
    r.proc.process.status = ProcStatus.REJECTED ∧
    r.proc.steps =
      ctx.steps.map (applyActionToStep stepId StepAction.reject comments actorId now) ∧
    { st with status := StepStatus.REJECTED, actedById := some actorId,
              actedAt := some now, comments := comments } ∈ r.proc.steps ∧
    (∀ s ∈ ctx.steps, s.id ≠ stepId → s ∈ r.proc.steps) ∧
    r.proc.template = ctx.template := by
  obtain ⟨hrole, hpid, hpend, htype, hproc, hfl1, hfl2⟩ :=
    actStep_ok_decomp procs role processId stepId StepAction.reject comments
      actorId now r ctx st hfind hok
  obtain ⟨hctxmem, hstmem, hstid⟩ := findStepCtx_eq procs stepId ctx st hfind
  rw [hproc]
  refine ⟨rfl, rfl, ?_, ?_, rfl⟩
  · have hupd := applyAction_self stepId StepAction.reject comments actorId now st hstid
    have : applyActionToStep stepId StepAction.reject comments actorId now st =
        { st with status := StepStatus.REJECTED, actedById := some actorId,
                  actedAt := some now, comments := comments } := by
      rw [hupd]
      rfl
    exact this ▸ List.mem_map_of_mem _ hstmem
  · intro s hs hne
    exact mem_map_applyAction_of_ne ctx.steps stepId StepAction.reject comments
      actorId now s hs hne

/-- The updated first approval instance after the C2 fixture reject. -/
def iA1rej : StepInstance :=
  { id := 0, workflowStep := sA1, status := StepStatus.REJECTED,
    actedById := some 9, actedAt := some 100, comments := some "no" }

/-- Expected result of rejecting the first approval step of the
two-approval fixture. -/
def c2res : ActOk :=
  { proc :=
      { process := { id := 7, workflowTemplateId := 1, createdById := 5,
                     status := ProcStatus.REJECTED },
        template := wAA,
        steps := [iA1rej, iA2] },
    notifiedApprovers := false }

/-- C2 witness: rejecting the first approval step of the two-approval
fixture. -/
theorem actStep_reject_terminal_witness :
    c2res.proc.process.status = ProcStatus.REJECTED :=
  (actStep_reject_terminal [ctxAA] Role.ADMIN 7 0 (some "no") 9 100 c2res
    ctxAA iA1 (by decide) (by rfl)).1

deriving instance DecidableEq for Except

/-- C8: for every successful actStep call with action = request_changes
on a pending APPROVAL step instance, the acted step instance is set to
REJECTED (the non-approve branch of the step update) with the actor
identity, acted-at = now and the comments recorded, the process status
is set to CHANGES_REQUESTED, and no other step instance is modified. -/
theorem actStep_request_changes_spec (procs : List ProcCtx) (role : Role)
    (processId stepId : Nat) (comments : Option String) (actorId now : Nat)
    (r : ActOk) (ctx : ProcCtx) (st : StepInstance)
    (hfind : findStepCtx procs stepId = some (ctx, st))
    (hok : actStep procs role processId stepId StepAction.request_changes
      comments actorId now = Except.ok r) :
    r.proc.process.status = ProcStatus.CHANGES_REQUESTED ∧
    r.proc.steps =
      ctx.steps.map (applyActionToStep stepId StepAction.request_changes comments
        actorId now) ∧
    { st with status := StepStatus.REJECTED, actedById := some actorId,
              actedAt := some now, comments := comments } ∈ r.proc.steps ∧
    (∀ s ∈ ctx.steps, s.id ≠ stepId → s ∈ r.proc.steps) ∧
    r.proc.template = ctx.template := by
  obtain ⟨hrole, hpid, hpend, htype, hproc, hfl1, hfl2⟩ :=
    actStep_ok_decomp procs role processId stepId StepAction.request_changes
      comments actorId now r ctx st hfind hok
  obtain ⟨hctxmem, hstmem, hstid⟩ := findStepCtx_eq procs stepId ctx st hfind
  rw [hproc]
  refine ⟨rfl, rfl, ?_, ?_, rfl⟩
  · have hupd := applyAction_self stepId StepAction.request_changes comments
      actorId now st hstid
    have : applyActionToStep stepId StepAction.request_changes comments actorId now st =
        { st with status := StepStatus.REJECTED, actedById := some actorId,
                  actedAt := some now, comments := comments } := by
      rw [hupd]
      rfl
    exact this ▸ List.mem_map_of_mem _ hstmem
  · intro s hs hne
    exact mem_map_applyAction_of_ne ctx.steps stepId StepAction.request_changes
      comments actorId now s hs hne

/-- Expected result of requesting changes on the first approval step of
the two-approval fixture. -/
def c8res : ActOk :=
  { proc :=
      { process := { id := 7, workflowTemplateId := 1, createdById := 5,
                     status := ProcStatus.CHANGES_REQUESTED },
        template := wAA,
        steps := [iA1rej, iA2] },
    notifiedApprovers := false }

/-- C8 witness: requesting changes on the first approval step of the
two-approval fixture. -/
theorem actStep_request_changes_spec_witness :
    c8res.proc.process.status = ProcStatus.CHANGES_REQUESTED :=
  (actStep_request_changes_spec [ctxAA] Role.ADMIN 7 0 (some "no") 9 100 c8res
    ctxAA iA1 (by decide) (by rfl)).1

/-- C3 counterexample: a USER caller with a step id that exists nowhere
gets the Forbidden error, not the not-found error the claim requires,
because the handler checks the role before looking the step up. -/
theorem actStep_precondition_order_cex :
    actStep [] Role.USER 7 99 StepAction.approve none 5 100 =
      Except.error (ApiError.ForbiddenError "Forbidden") ∧
    actStep [] Role.USER 7 99 StepAction.approve none 5 100 ≠
      Except.error (ApiError.NotFoundError "Step not found") := by
  constructor
  · rfl
  · decide

/-- C3 (amended): the preconditions of actStep each produce their
distinct error with no state change, but in the order role first, then
existence, then process match, then pending, then approval type: a
caller without an elevated role gets ForbiddenError before anything is
looked up; an elevated caller gets NotFoundError for a missing step,
and the three ValidationError cases follow in sequence. -/
theorem actStep_precondition_order (procs : List ProcCtx) (role : Role)
    (processId stepId : Nat) (action : StepAction) (comments : Option String)
    (actorId now : Nat) :
    (¬ (role = Role.ADMIN ∨ role = Role.APPROVER) →
      actStep procs role processId stepId action comments actorId now =
        Except.error (ApiError.ForbiddenError "Forbidden")) ∧
    ((role = Role.ADMIN ∨ role = Role.APPROVER) →
      findStepCtx procs stepId = none →
      actStep procs role processId stepId action comments actorId now =
        Except.error (ApiError.NotFoundError "Step not found")) ∧
    (∀ ctx st, (role = Role.ADMIN ∨ role = Role.APPROVER) →
      findStepCtx procs stepId = some (ctx, st) →
      ctx.process.id ≠ processId →
      actStep procs role processId stepId action comments actorId now =
        Except.error (ApiError.ValidationError
          "Step does not belong to this process")) ∧
    (∀ ctx st, (role = Role.ADMIN ∨ role = Role.APPROVER) →
      findStepCtx procs stepId = some (ctx, st) →
      ctx.process.id = processId → st.status ≠ StepStatus.PENDING →
      actStep procs role processId stepId action comments actorId now =
        Except.error (ApiError.ValidationError "Step is not pending")) ∧
    (∀ ctx st, (role = Role.ADMIN ∨ role = Role.APPROVER) →
      findStepCtx procs stepId = some (ctx, st) →
      ctx.process.id = processId → st.status = StepStatus.PENDING →
      st.workflowStep.stepType ≠ StepType.APPROVAL →
      actStep procs role processId stepId action comments actorId now =
        Except.error (ApiError.ValidationError
          "This step type does not support approval actions")) := by
  refine ⟨?_, ?_, ?_, ?_, ?_⟩
  · intro hrole
    exact actStep_err_role procs role processId stepId action comments actorId
      now hrole
  · intro hrole hfind
    exact actStep_err_notfound procs role processId stepId action comments
      actorId now hrole hfind
  · intro ctx st hrole hfind hpid
    exact actStep_err_mismatch procs role processId stepId action comments
      actorId now ctx st hrole hfind hpid
  · intro ctx st hrole hfind hpid hpend
    exact actStep_err_notpending procs role processId stepId action comments
      actorId now ctx st hrole hfind hpid hpend
  · intro ctx st hrole hfind hpid hpend htype
    exact actStep_err_type procs role processId stepId action comments actorId
      now ctx st hrole hfind hpid hpend htype

/-- C3 witness: each precondition failure observed on a concrete input,
in the amended order. -/
theorem actStep_precondition_order_witness :
    actStep [ctxAA] Role.USER 7 0 StepAction.approve none 5 100 =
      Except.error (ApiError.ForbiddenError "Forbidden") ∧
    actStep [ctxAA] Role.ADMIN 7 99 StepAction.approve none 5 100 =
      Except.error (ApiError.NotFoundError "Step not found") ∧
    actStep [ctxAA] Role.ADMIN 12 0 StepAction.approve none 5 100 =
      Except.error (ApiError.ValidationError
        "Step does not belong to this process") ∧
    actStep [c2res.proc] Role.ADMIN 7 0 StepAction.approve none 5 100 =
      Except.error (ApiError.ValidationError "Step is not pending") ∧
    actStep [ctxAN] Role.ADMIN 8 1 StepAction.approve none 5 100 =
      Except.error (ApiError.ValidationError
        "This step type does not support approval actions") :=
  ⟨(actStep_precondition_order [ctxAA] Role.USER 7 0 StepAction.approve none
      5 100).1 (by decide),
   (actStep_precondition_order [ctxAA] Role.ADMIN 7 99 StepAction.approve none
      5 100).2.1 (by decide) (by decide),
   (actStep_precondition_order [ctxAA] Role.ADMIN 12 0 StepAction.approve none
      5 100).2.2.1 ctxAA iA1 (by decide) (by decide) (by decide),
   (actStep_precondition_order [c2res.proc] Role.ADMIN 7 0 StepAction.approve
      none 5 100).2.2.2.1 c2res.proc iA1rej (by decide) (by decide) (by decide)
      (by decide),
   (actStep_precondition_order [ctxAN] Role.ADMIN 8 1 StepAction.approve none
      5 100).2.2.2.2 ctxAN iN2 (by decide) (by decide) (by decide) (by decide)
      (by decide)⟩

/-- A step instance whose id differs from the auto-completed one passes
through the notification auto-completion unchanged. -/
theorem mem_map_autoComplete_of_ne (steps : List StepInstance)
    (targetId now : Nat) (s : StepInstance) (hs : s ∈ steps)
    (hne : s.id ≠ targetId) :
    s ∈ steps.map (autoCompleteStep targetId now) := by
  have hfix : autoCompleteStep targetId now s = s := by
    unfold autoCompleteStep
    rw [if_neg hne]
  exact hfix ▸ List.mem_map_of_mem _ hs

/-- Transaction outcome on approve when no template step at the next
order exists: process COMPLETED, only the acted step updated. -/
theorem runTransaction_approve_noNext (ctx : ProcCtx) (stepId k : Nat)
    (comments : Option String) (actorId now : Nat)
    (hnone : ctx.template.steps.find? (fun s => s.stepOrder == k + 1) = none) :
    runTransaction ctx stepId k StepAction.approve comments actorId now =
      { ctx with
        steps := ctx.steps.map (applyActionToStep stepId StepAction.approve
          comments actorId now),
        process := { ctx.process with status := ProcStatus.COMPLETED } } := by
  unfold runTransaction
  simp [hnone]

/-- Transaction outcome on approve when the next template step is a
NOTIFICATION and nothing follows it: the next instance auto-completes
and the process is COMPLETED. -/
theorem runTransaction_approve_notifLast (ctx : ProcCtx) (stepId k : Nat)
    (comments : Option String) (actorId now : Nat)
    (nws : WorkflowStep) (nsi : StepInstance)
    (hnws : ctx.template.steps.find? (fun s => s.stepOrder == k + 1) = some nws)
    (hnsi : ctx.steps.find? (fun s => s.workflowStep.stepOrder == k + 1) = some nsi)
    (hntyp : nws.stepType = StepType.NOTIFICATION)
    (hsub : ctx.template.steps.find? (fun s => s.stepOrder == k + 2) = none) :
    runTransaction ctx stepId k StepAction.approve comments actorId now =
      { ctx with
        steps := (ctx.steps.map (applyActionToStep stepId StepAction.approve
          comments actorId now)).map (autoCompleteStep nsi.id now),
        process := { ctx.process with status := ProcStatus.COMPLETED } } := by
  unfold runTransaction
  simp [hnws, hnsi, hntyp, hsub]

/-- Transaction outcome on approve when the next template step is a
NOTIFICATION and a further step exists: the next instance auto-completes
and the process row is not updated. -/
theorem runTransaction_approve_notifMore (ctx : ProcCtx) (stepId k : Nat)
    (comments : Option String) (actorId now : Nat)
    (nws subw : WorkflowStep) (nsi : StepInstance)
    (hnws : ctx.template.steps.find? (fun s => s.stepOrder == k + 1) = some nws)
    (hnsi : ctx.steps.find? (fun s => s.workflowStep.stepOrder == k + 1) = some nsi)
    (hntyp : nws.stepType = StepType.NOTIFICATION)
    (hsub : ctx.template.steps.find? (fun s => s.stepOrder == k + 2) = some subw) :
    runTransaction ctx stepId k StepAction.approve comments actorId now =
      { ctx with
        steps := (ctx.steps.map (applyActionToStep stepId StepAction.approve
          comments actorId now)).map (autoCompleteStep nsi.id now) } := by
  unfold runTransaction
  simp [hnws, hnsi, hntyp, hsub]

/-- Transaction outcome on approve when the next template step is FORM
or APPROVAL: only the acted step is updated and the process is set
IN_PROGRESS. -/
theorem runTransaction_approve_nextOther (ctx : ProcCtx) (stepId k : Nat)
    (comments : Option String) (actorId now : Nat)
    (nws : WorkflowStep) (nsi : StepInstance)
    (hnws : ctx.template.steps.find? (fun s => s.stepOrder == k + 1) = some nws)
    (hnsi : ctx.steps.find? (fun s => s.workflowStep.stepOrder == k + 1) = some nsi)
    (hntyp : nws.stepType ≠ StepType.NOTIFICATION) :
    runTransaction ctx stepId k StepAction.approve comments actorId now =
      { ctx with
        steps := ctx.steps.map (applyActionToStep stepId StepAction.approve
          comments actorId now),
        process := { ctx.process with status := ProcStatus.IN_PROGRESS } } := by
  unfold runTransaction
  simp [hnws, hnsi, hntyp]

/-- C1: a successful approve on a pending APPROVAL step instance follows
the transition table. With no template step at stepOrder + 1 the process
is COMPLETED. With a NOTIFICATION step at stepOrder + 1, that step
instance is set to COMPLETED with acted-at = now and its actor field
untouched, the process is COMPLETED exactly when no step at
stepOrder + 2 exists and is left IN_PROGRESS otherwise, and no step
instance beyond the acted one and the auto-completed one changes — in
particular a second consecutive NOTIFICATION step is not auto-completed.
With a FORM or APPROVAL step at stepOrder + 1 the process is set
IN_PROGRESS and the next step instance record is unchanged. -/
theorem actStep_approve_transition_table (procs : List ProcCtx) (role : Role)
    (processId stepId : Nat) (comments : Option String) (actorId now : Nat)
    (r : ActOk) (ctx : ProcCtx) (st : StepInstance)
    (hfind : findStepCtx procs stepId = some (ctx, st))
    (hstat : ctx.process.status = ProcStatus.IN_PROGRESS)
    (hok : actStep procs role processId stepId StepAction.approve comments
      actorId now = Except.ok r) :
    (ctx.template.steps.find?
        (fun s => s.stepOrder == st.workflowStep.stepOrder + 1) = none →
      r.proc.process.status = ProcStatus.COMPLETED ∧
      r.proc.steps = ctx.steps.map (applyActionToStep stepId StepAction.approve
        comments actorId now)) ∧
    (∀ nws nsi,
      ctx.template.steps.find?
        (fun s => s.stepOrder == st.workflowStep.stepOrder + 1) = some nws →
      ctx.steps.find?
        (fun s => s.workflowStep.stepOrder == st.workflowStep.stepOrder + 1) =
        some nsi →
      (nws.stepType = StepType.NOTIFICATION →
        r.proc.steps = (ctx.steps.map (applyActionToStep stepId
          StepAction.approve comments actorId now)).map
          (autoCompleteStep nsi.id now) ∧
        (nsi.id ≠ stepId →
          { nsi with status := StepStatus.COMPLETED, actedAt := some now } ∈
            r.proc.steps) ∧
        (∀ s ∈ ctx.steps, s.id ≠ stepId → s.id ≠ nsi.id → s ∈ r.proc.steps) ∧
        (ctx.template.steps.find?
            (fun s => s.stepOrder == st.workflowStep.stepOrder + 2) = none →
          r.proc.process.status = ProcStatus.COMPLETED) ∧
        (∀ subw,
          ctx.template.steps.find?
            (fun s => s.stepOrder == st.workflowStep.stepOrder + 2) = some subw →
          r.proc.process.status = ProcStatus.IN_PROGRESS)) ∧
      (nws.stepType ≠ StepType.NOTIFICATION →
        r.proc.process.status = ProcStatus.IN_PROGRESS ∧
        r.proc.steps = ctx.steps.map (applyActionToStep stepId
          StepAction.approve comments actorId now) ∧
        (nsi.id ≠ stepId → nsi ∈ r.proc.steps))) := by
  obtain ⟨hrole, hpid, hpend, htype, hproc, hfl1, hfl2⟩ :=
    actStep_ok_decomp procs role processId stepId StepAction.approve comments
      actorId now r ctx st hfind hok
  constructor
  · intro hnone
    rw [hproc, runTransaction_approve_noNext ctx stepId st.workflowStep.stepOrder
      comments actorId now hnone]
    exact ⟨rfl, rfl⟩
  · intro nws nsi hnws hnsi
    have hnsimem := List.mem_of_find?_eq_some hnsi
    constructor
    · intro hntyp
      cases hsub : ctx.template.steps.find?
          (fun s => s.stepOrder == st.workflowStep.stepOrder + 2) with
      | none =>
        rw [hproc, runTransaction_approve_notifLast ctx stepId
          st.workflowStep.stepOrder comments actorId now nws nsi hnws hnsi
          hntyp hsub]
        refine ⟨rfl, ?_, ?_, fun _ => rfl, ?_⟩
        · intro hne
          have h1 : nsi ∈ ctx.steps.map (applyActionToStep stepId
              StepAction.approve comments actorId now) :=
            mem_map_applyAction_of_ne ctx.steps stepId StepAction.approve
              comments actorId now nsi hnsimem hne
          have h2 : autoCompleteStep nsi.id now nsi =
              { nsi with status := StepStatus.COMPLETED, actedAt := some now } := by
            unfold autoCompleteStep
            rw [if_pos rfl]
          exact h2 ▸ List.mem_map_of_mem _ h1
        · intro s hs hne1 hne2
          exact mem_map_autoComplete_of_ne _ nsi.id now s
            (mem_map_applyAction_of_ne ctx.steps stepId StepAction.approve
              comments actorId now s hs hne1) hne2
        · intro subw hsub2
          exact Option.noConfusion hsub2
      | some subw =>
        rw [hproc, runTransaction_approve_notifMore ctx stepId
          st.workflowStep.stepOrder comments actorId now nws subw nsi hnws hnsi
          hntyp hsub]
        refine ⟨rfl, ?_, ?_, ?_, fun _ _ => hstat⟩
        · intro hne
          have h1 : nsi ∈ ctx.steps.map (applyActionToStep stepId
              StepAction.approve comments actorId now) :=
            mem_map_applyAction_of_ne ctx.steps stepId StepAction.approve
              comments actorId now nsi hnsimem hne
          have h2 : autoCompleteStep nsi.id now nsi =
              { nsi with status := StepStatus.COMPLETED, actedAt := some now } := by
            unfold autoCompleteStep
            rw [if_pos rfl]
          exact h2 ▸ List.mem_map_of_mem _ h1
        · intro s hs hne1 hne2
          exact mem_map_autoComplete_of_ne _ nsi.id now s
            (mem_map_applyAction_of_ne ctx.steps stepId StepAction.approve
              comments actorId now s hs hne1) hne2
        · intro hsub2
          exact Option.noConfusion hsub2
    · intro hntyp
      rw [hproc, runTransaction_approve_nextOther ctx stepId
        st.workflowStep.stepOrder comments actorId now nws nsi hnws hnsi hntyp]
      refine ⟨rfl, rfl, ?_⟩
      intro hne
      exact mem_map_applyAction_of_ne ctx.steps stepId StepAction.approve
        comments actorId now nsi hnsimem hne

/-- C6: actStep enforces no ordering among a process's steps and never
inspects the aggregate process status: with two pending APPROVAL steps,
approving the one with the higher stepOrder succeeds while the earlier
one is still PENDING, and when the approved step is the last template
step the process is set COMPLETED while the earlier instance remains
unchanged, hence PENDING. -/
theorem actStep_no_step_ordering (procs : List ProcCtx) (role : Role)
    (processId stepId : Nat) (comments : Option String) (actorId now : Nat)
    (ctx : ProcCtx) (s1 s2 : StepInstance)
    (hrole : role = Role.ADMIN ∨ role = Role.APPROVER)
    (hfind : findStepCtx procs stepId = some (ctx, s2))
    (hpid : ctx.process.id = processId)
    (hs1 : s1 ∈ ctx.steps) (hs1p : s1.status = StepStatus.PENDING)
    (hs1t : s1.workflowStep.stepType = StepType.APPROVAL)
    (hs2p : s2.status = StepStatus.PENDING)
    (hs2t : s2.workflowStep.stepType = StepType.APPROVAL)
    (hlt : s1.workflowStep.stepOrder < s2.workflowStep.stepOrder)
    (hids : s1.id ≠ s2.id)
    (hlast : ctx.template.steps.find?
      (fun s => s.stepOrder == s2.workflowStep.stepOrder + 1) = none) :
    ∃ r, actStep procs role processId stepId StepAction.approve comments
        actorId now = Except.ok r ∧
      r.proc.process.status = ProcStatus.COMPLETED ∧
      s1 ∈ r.proc.steps ∧ s1.status = StepStatus.PENDING := by
  obtain ⟨hmem, hstm, hstid⟩ := findStepCtx_eq procs stepId ctx s2 hfind
  refine ⟨_, actStep_ok_intro procs role processId stepId StepAction.approve
    comments actorId now ctx s2 hfind hrole hpid hs2p hs2t, ?_, ?_, hs1p⟩
  · rw [runTransaction_approve_noNext ctx stepId s2.workflowStep.stepOrder
      comments actorId now hlast]
  · rw [runTransaction_approve_noNext ctx stepId s2.workflowStep.stepOrder
      comments actorId now hlast]
    exact mem_map_applyAction_of_ne ctx.steps stepId StepAction.approve
      comments actorId now s1 hs1 (hstid ▸ hids)

/-- C6 witness: approving the later of two pending approval steps of the
two-approval fixture while the earlier one is pending. -/
theorem actStep_no_step_ordering_witness :
    ∃ r, actStep [ctxAA] Role.APPROVER 7 1 StepAction.approve none 9 100 =
        Except.ok r ∧
      r.proc.process.status = ProcStatus.COMPLETED ∧
      iA1 ∈ r.proc.steps ∧ iA1.status = StepStatus.PENDING :=
  actStep_no_step_ordering [ctxAA] Role.APPROVER 7 1 none 9 100 ctxAA iA1 iA2
    (by decide) (by decide) (by decide) (by decide) (by decide) (by decide)
    (by decide) (by decide) (by decide) (by decide) (by decide)

/-- With pairwise distinct step orders, the notify-pool find (order and
APPROVAL type together) is determined by the plain order find. -/
theorem find_order_type_of_nodup (l : List WorkflowStep) (n : Nat)
    (w : WorkflowStep) (hnd : ordersNodup l = true)
    (hf : l.find? (fun s => s.stepOrder == n) = some w) :
    l.find? (fun s => s.stepOrder == n && s.stepType == StepType.APPROVAL) =
      (if w.stepType = StepType.APPROVAL then some w else none) := by
  induction l with
  | nil => simp [List.find?] at hf
  | cons a rest ih =>
    unfold ordersNodup at hnd
    rw [Bool.and_eq_true] at hnd
    obtain ⟨hall, hndrest⟩ := hnd
    by_cases ha : a.stepOrder = n
    · have hw : w = a := by
        rw [List.find?_cons_of_pos _ (by simp [ha])] at hf
        exact (Option.some.inj hf).symm
      subst hw
      by_cases hat : w.stepType = StepType.APPROVAL
      · rw [List.find?_cons_of_pos _ (by simp [ha, hat])]
        simp [hat]
      · rw [List.find?_cons_of_neg _ (by simp [hat])]
        rw [if_neg hat]
        apply List.find?_eq_none.mpr
        intro x hx
        have h1 := List.all_eq_true.mp hall x hx
        rw [bne_iff_ne] at h1
        rw [ha] at h1
        simp [h1]
    · rw [List.find?_cons_of_neg _ (by simp [ha])] at hf
      rw [List.find?_cons_of_neg _ (by simp [ha])]
      exact ih hndrest hf

/-- C10: after a successful approve, the approver pool is notified
exactly when the template step at stepOrder + 1 exists and has type
APPROVAL; with a NOTIFICATION step at stepOrder + 1 the pool is not
notified even when an APPROVAL step sits at stepOrder + 2. -/
theorem actStep_notify_iff_next_approval (procs : List ProcCtx) (role : Role)
    (processId stepId : Nat) (comments : Option String) (actorId now : Nat)
    (r : ActOk) (ctx : ProcCtx) (st : StepInstance)
    (hfind : findStepCtx procs stepId = some (ctx, st))
    (hnd : ordersNodup ctx.template.steps = true)
    (hok : actStep procs role processId stepId StepAction.approve comments
      actorId now = Except.ok r) :
    (ctx.template.steps.find?
        (fun s => s.stepOrder == st.workflowStep.stepOrder + 1) = none →
      r.notifiedApprovers = false) ∧
    (∀ nws,
      ctx.template.steps.find?
        (fun s => s.stepOrder == st.workflowStep.stepOrder + 1) = some nws →
      (r.notifiedApprovers = true ↔ nws.stepType = StepType.APPROVAL)) := by
  obtain ⟨hrole, hpid, hpend, htype, hproc, hfl1, hfl2⟩ :=
    actStep_ok_decomp procs role processId stepId StepAction.approve comments
      actorId now r ctx st hfind hok
  have hflag := hfl1 rfl
  constructor
  · intro hnone
    have hcnone : ctx.template.steps.find?
        (fun s => s.stepOrder == st.workflowStep.stepOrder + 1 &&
          s.stepType == StepType.APPROVAL) = none := by
      apply List.find?_eq_none.mpr
      intro x hx
      have hxo := List.find?_eq_none.mp hnone x hx
      simp only [beq_iff_eq] at hxo
      simp [hxo]
    rw [hflag, hcnone]
    rfl
  · intro nws hnws
    rw [hflag, find_order_type_of_nodup ctx.template.steps
      (st.workflowStep.stepOrder + 1) nws hnd hnws]
    by_cases hat : nws.stepType = StepType.APPROVAL
    · simp [hat]
    · simp [hat]

/-- The acted first approval instance after approving it at time 100. -/
def iA1app : StepInstance :=
  { id := 0, workflowStep := sA1, status := StepStatus.COMPLETED,
    actedById := some 9, actedAt := some 100, comments := none }

/-- The auto-completed notification instance at time 100: no actor. -/
def iN2done : StepInstance :=
  { id := 1, workflowStep := sN2, status := StepStatus.COMPLETED,
    actedById := none, actedAt := some 100, comments := none }

/-- Expected result of approving the first step of the
approval-notification-approval fixture. -/
def c10res : ActOk :=
  { proc :=
      { process := { id := 9, workflowTemplateId := 3, createdById := 5,
                     status := ProcStatus.IN_PROGRESS },
        template := wANA, steps := [iA1app, iN2done, iA3] },
    notifiedApprovers := false }

/-- C10 witness: in the approval-notification-approval fixture, the
next template step is the NOTIFICATION, so the pool notification is
equivalent to the false statement that its type is APPROVAL. -/
theorem actStep_notify_iff_next_approval_witness :
    c10res.notifiedApprovers = true ↔ sN2.stepType = StepType.APPROVAL :=
  (actStep_notify_iff_next_approval [ctxANA] Role.ADMIN 9 0 none 9 100 c10res
    ctxANA iA1 (by decide) (by decide) (by rfl)).2 sN2 (by decide)

/-- Expected result of approving the first step of the
approval-notification fixture: the notification auto-completes and the
process completes. -/
def c1res : ActOk :=
  { proc :=
      { process := { id := 8, workflowTemplateId := 2, createdById := 5,
                     status := ProcStatus.COMPLETED },
        template := wAN, steps := [iA1app, iN2done] },
    notifiedApprovers := false }

/-- C1 witness: approving the approval step of the approval-notification
fixture auto-completes the notification instance without an actor and
completes the process. -/
theorem actStep_approve_transition_table_witness :
    c1res.proc.process.status = ProcStatus.COMPLETED ∧
    iN2done ∈ c1res.proc.steps :=
  ⟨(((actStep_approve_transition_table [ctxAN] Role.ADMIN 8 0 none 9 100 c1res
      ctxAN iA1 (by decide) (by decide) (by rfl)).2 sN2 iN2 (by decide)
      (by decide)).1 (by decide)).2.2.2.1 (by decide),
   (((actStep_approve_transition_table [ctxAN] Role.ADMIN 8 0 none 9 100 c1res
      ctxAN iA1 (by decide) (by decide) (by rfl)).2 sN2 iN2 (by decide)
      (by decide)).1 (by decide)).2.1 (by decide)⟩

/-- C5 (amended): the PENDING guard alone protects terminal processes:
any actStep call against a step of a process none of whose step
instances is both PENDING and of APPROVAL type fails. -/
theorem actStep_fails_without_pending_approval (procs : List ProcCtx)
    (role : Role) (processId stepId : Nat) (action : StepAction)
    (comments : Option String) (actorId now : Nat) (ctx : ProcCtx)
    (st : StepInstance)
    (hfind : findStepCtx procs stepId = some (ctx, st))
    (hterm : ∀ s ∈ ctx.steps,
      ¬ (s.status = StepStatus.PENDING ∧
         s.workflowStep.stepType = StepType.APPROVAL)) :
    ∃ e, actStep procs role processId stepId action comments actorId now =
      Except.error e := by
  obtain ⟨hmem, hstm, hstid⟩ := findStepCtx_eq procs stepId ctx st hfind
  by_cases hrole : role = Role.ADMIN ∨ role = Role.APPROVER
  · by_cases hpid : ctx.process.id = processId
    · by_cases hpend : st.status = StepStatus.PENDING
      · have htype : st.workflowStep.stepType ≠ StepType.APPROVAL := by
          intro hc
          exact hterm st hstm ⟨hpend, hc⟩
        exact ⟨_, actStep_err_type procs role processId stepId action comments
          actorId now ctx st hrole hfind hpid hpend htype⟩
      · exact ⟨_, actStep_err_notpending procs role processId stepId action
          comments actorId now ctx st hrole hfind hpid hpend⟩
    · exact ⟨_, actStep_err_mismatch procs role processId stepId action
        comments actorId now ctx st hrole hfind hpid⟩
  · exact ⟨_, actStep_err_role procs role processId stepId action comments
      actorId now hrole⟩

/-- A fully completed process over the two-approval template. -/
def ctxDone : ProcCtx :=
  { process := { id := 7, workflowTemplateId := 1, createdById := 5,
                 status := ProcStatus.COMPLETED },
    template := wAA,
    steps :=
      [{ id := 0, workflowStep := sA1, status := StepStatus.COMPLETED,
         actedById := some 9, actedAt := some 100, comments := none },
       { id := 1, workflowStep := sA2, status := StepStatus.COMPLETED,
         actedById := some 9, actedAt := some 101, comments := none }] }

/-- C5 witness: every action against a step of the fully completed
fixture fails. -/
theorem actStep_fails_without_pending_approval_witness :
    ∃ e, actStep [ctxDone] Role.ADMIN 7 0 StepAction.approve none 9 102 =
      Except.error e :=
  actStep_fails_without_pending_approval [ctxDone] Role.ADMIN 7 0
    StepAction.approve none 9 102 ctxDone
    { id := 0, workflowStep := sA1, status := StepStatus.COMPLETED,
      actedById := some 9, actedAt := some 100, comments := none }
    (by decide) (by decide)

/-- The later approval instance after approving it at time 101. -/
def iA2app : StepInstance :=
  { id := 1, workflowStep := sA2, status := StepStatus.COMPLETED,
    actedById := some 9, actedAt := some 101, comments := none }

/-- The two-approval process after its second step was approved first:
COMPLETED with the first step still pending. -/
def c5proc1 : ProcCtx :=
  { process := { id := 7, workflowTemplateId := 1, createdById := 5,
                 status := ProcStatus.COMPLETED },
    template := wAA, steps := [iA1, iA2app] }

/-- The same process after the remaining pending approval was then also
approved: the engine even moves the COMPLETED process back to
IN_PROGRESS. -/
def c5proc2 : ProcCtx :=
  { process := { id := 7, workflowTemplateId := 1, createdById := 5,
                 status := ProcStatus.IN_PROGRESS },
    template := wAA,
    steps :=
      [{ id := 0, workflowStep := sA1, status := StepStatus.COMPLETED,
         actedById := some 9, actedAt := some 102, comments := none }, iA2app] }

/-- C5 counterexample: a process created by the engine and approved out
of order reaches status COMPLETED with a PENDING APPROVAL step instance
left, and an actStep call against that instance then succeeds, so
COMPLETED is not terminal as claimed. -/
theorem actStep_terminal_guard_cex :
    createProcess [wAA] 1 5 100 7 = Except.ok ctxAA ∧
    actStep [ctxAA] Role.ADMIN 7 1 StepAction.approve none 9 101 =
      Except.ok { proc := c5proc1, notifiedApprovers := false } ∧
    c5proc1.process.status = ProcStatus.COMPLETED ∧
    iA1 ∈ c5proc1.steps ∧ iA1.status = StepStatus.PENDING ∧
    iA1.workflowStep.stepType = StepType.APPROVAL ∧
    actStep [c5proc1] Role.ADMIN 7 0 StepAction.approve none 9 102 =
      Except.ok { proc := c5proc2, notifiedApprovers := true } := by
  refine ⟨by rfl, by rfl, by decide, by decide, by decide, by decide, by rfl⟩

/-- createProcess error when the template is missing. -/
theorem createProcess_err_notfound (templates : List WorkflowTemplate)
    (workflowTemplateId creatorId now newProcessId : Nat)
    (hfindw : templates.find? (fun t => t.id == workflowTemplateId) = none) :
    createProcess templates workflowTemplateId creatorId now newProcessId =
      Except.error (ApiError.NotFoundError "Workflow not found") := by
  unfold createProcess
  simp [hfindw]

/-- createProcess error when the template is not ACTIVE. -/
theorem createProcess_err_inactive (templates : List WorkflowTemplate)
    (workflowTemplateId creatorId now newProcessId : Nat) (w : WorkflowTemplate)
    (hfindw : templates.find? (fun t => t.id == workflowTemplateId) = some w)
    (hact : w.status ≠ TemplateStatus.ACTIVE) :
    createProcess templates workflowTemplateId creatorId now newProcessId =
      Except.error (ApiError.ValidationError "Workflow is not active") := by
  unfold createProcess
  simp [hfindw, hact]

/-- createProcess error when the template has no steps. -/
theorem createProcess_err_nosteps (templates : List WorkflowTemplate)
    (workflowTemplateId creatorId now newProcessId : Nat) (w : WorkflowTemplate)
    (hfindw : templates.find? (fun t => t.id == workflowTemplateId) = some w)
    (hact : w.status = TemplateStatus.ACTIVE)
    (hlen : w.steps.length = 0) :
    createProcess templates workflowTemplateId creatorId now newProcessId =
      Except.error (ApiError.ValidationError "Workflow has no steps defined") := by
  unfold createProcess
  simp [hfindw, hact, hlen]

/-- createProcess success shape when the guards pass. -/
theorem createProcess_ok_eq (templates : List WorkflowTemplate)
    (workflowTemplateId creatorId now newProcessId : Nat) (w : WorkflowTemplate)
    (hfindw : templates.find? (fun t => t.id == workflowTemplateId) = some w)
    (hact : w.status = TemplateStatus.ACTIVE)
    (hlen : w.steps.length ≠ 0) :
    createProcess templates workflowTemplateId creatorId now newProcessId =
      Except.ok
        { process :=
            { id := newProcessId, workflowTemplateId := w.id,
              createdById := creatorId, status := ProcStatus.IN_PROGRESS },
          template := w,
          steps := mkStepInstances creatorId now 0 w.steps } := by
  unfold createProcess
  simp [hfindw, hact, hlen]

/-- The created step instances carry the template steps in order. -/
theorem mkStepInstances_map_workflowStep (c n : Nat) (i : Nat)
    (l : List WorkflowStep) :
    (mkStepInstances c n i l).map (fun s => s.workflowStep) = l := by
  induction l generalizing i with
  | nil => rfl
  | cons a rest ih => simp [mkStepInstances, ih]

/-- Field characterisation of the created step instances when the
template steps have contiguous orders starting at i + 1: an instance is
auto-completed with the creator as actor exactly when its step has
order 1 and type FORM, and is otherwise PENDING with no actor and no
acted-at. -/
theorem mkStepInstances_fields (c n : Nat) (i : Nat) (l : List WorkflowStep)
    (hord : ordersFrom (i + 1) l = true) :
    ∀ si ∈ mkStepInstances c n i l,
      ((si.workflowStep.stepOrder = 1 ∧
        si.workflowStep.stepType = StepType.FORM) →
        si.status = StepStatus.COMPLETED ∧ si.actedById = some c ∧
        si.actedAt = some n) ∧
      (¬ (si.workflowStep.stepOrder = 1 ∧
          si.workflowStep.stepType = StepType.FORM) →
        si.status = StepStatus.PENDING ∧ si.actedById = none ∧
        si.actedAt = none) := by
  induction l generalizing i with
  | nil => intro si hsi; simp [mkStepInstances] at hsi
  | cons a rest ih =>
    unfold ordersFrom at hord
    rw [Bool.and_eq_true] at hord
    obtain ⟨ha, hrest⟩ := hord
    rw [beq_iff_eq] at ha
    intro si hsi
    rw [mkStepInstances] at hsi
    rcases List.mem_cons.mp hsi with hhead | htail
    · subst hhead
      constructor
      · rintro ⟨h1, h2⟩
        have hi0 : i = 0 := by
          simp only at h1
          omega
        simp only at h2
        simp [hi0, h2]
      · intro hc
        have hnc : ¬ (i = 0 ∧ a.stepType = StepType.FORM) := by
          rintro ⟨u, v⟩
          exact hc ⟨by simp only; omega, by simpa using v⟩
        simp [hnc]
    · exact ih (i + 1) hrest si htail

/-- C4: a successful createProcess on an existing ACTIVE template whose
steps have contiguous orders from 1 yields an IN_PROGRESS process with
exactly one step instance per template step in order; the instance of a
step with stepOrder 1 and type FORM is COMPLETED with actor = creator
and acted-at = now, and every other instance is PENDING with no actor
and no acted-at. -/
theorem createProcess_spec (templates : List WorkflowTemplate)
    (workflowTemplateId creatorId now newProcessId : Nat) (ctx : ProcCtx)
    (w : WorkflowTemplate)
    (hfindw : templates.find? (fun t => t.id == workflowTemplateId) = some w)
    (hord : ordersFrom 1 w.steps = true)
    (hok : createProcess templates workflowTemplateId creatorId now
      newProcessId = Except.ok ctx) :
    ctx.process.status = ProcStatus.IN_PROGRESS ∧
    ctx.template = w ∧
    ctx.steps.map (fun s => s.workflowStep) = w.steps ∧
    ∀ si ∈ ctx.steps,
      ((si.workflowStep.stepOrder = 1 ∧
        si.workflowStep.stepType = StepType.FORM) →
        si.status = StepStatus.COMPLETED ∧ si.actedById = some creatorId ∧
        si.actedAt = some now) ∧
      (¬ (si.workflowStep.stepOrder = 1 ∧
          si.workflowStep.stepType = StepType.FORM) →
        si.status = StepStatus.PENDING ∧ si.actedById = none ∧
        si.actedAt = none) := by
  by_cases hact : w.status = TemplateStatus.ACTIVE
  · by_cases hlen : w.steps.length = 0
    · rw [createProcess_err_nosteps templates workflowTemplateId creatorId now
        newProcessId w hfindw hact hlen] at hok
      exact Except.noConfusion hok
    · rw [createProcess_ok_eq templates workflowTemplateId creatorId now
        newProcessId w hfindw hact hlen] at hok
      have hr := Except.ok.inj hok
      subst hr
      exact ⟨rfl, rfl, mkStepInstances_map_workflowStep creatorId now 0 w.steps,
        mkStepInstances_fields creatorId now 0 w.steps hord⟩
  · rw [createProcess_err_inactive templates workflowTemplateId creatorId now
      newProcessId w hfindw hact] at hok
    exact Except.noConfusion hok

/-- Active template with a form step (and schema) then an approval. -/
def wFA : WorkflowTemplate :=
  { id := 4, status := TemplateStatus.ACTIVE, steps := [sF1, sA2],
    hasFormSchema := true }

/-- The auto-completed form instance of the form-approval fixture. -/
def iF1done : StepInstance :=
  { id := 0, workflowStep := sF1, status := StepStatus.COMPLETED,
    actedById := some 5, actedAt := some 100, comments := none }

/-- The process created over the form-approval fixture. -/
def c4ctx : ProcCtx :=
  { process := { id := 11, workflowTemplateId := 4, createdById := 5,
                 status := ProcStatus.IN_PROGRESS },
    template := wFA, steps := [iF1done, iA2] }

/-- C4 witness: creating a process over the form-approval fixture
auto-completes the form step for the creator and starts IN_PROGRESS. -/
theorem createProcess_spec_witness :
    c4ctx.process.status = ProcStatus.IN_PROGRESS ∧
    (iF1done.status = StepStatus.COMPLETED ∧ iF1done.actedById = some 5 ∧
      iF1done.actedAt = some 100) :=
  ⟨(createProcess_spec [wFA] 4 5 100 11 c4ctx wFA (by decide) (by decide)
      (by rfl)).1,
   ((createProcess_spec [wFA] 4 5 100 11 c4ctx wFA (by decide) (by decide)
      (by rfl)).2.2.2 iF1done (by decide)).1 (by decide)⟩

/-- C7: createProcess fails with NotFoundError for a missing template,
and with ValidationError for a non-ACTIVE template or an empty step
list; each failure is an error result of the pure transition, so no
record is produced. -/
theorem createProcess_precondition_errors (templates : List WorkflowTemplate)
    (workflowTemplateId creatorId now newProcessId : Nat) :
    (templates.find? (fun t => t.id == workflowTemplateId) = none →
      createProcess templates workflowTemplateId creatorId now newProcessId =
        Except.error (ApiError.NotFoundError "Workflow not found")) ∧
    (∀ w, templates.find? (fun t => t.id == workflowTemplateId) = some w →
      w.status ≠ TemplateStatus.ACTIVE →
      createProcess templates workflowTemplateId creatorId now newProcessId =
        Except.error (ApiError.ValidationError "Workflow is not active")) ∧
    (∀ w, templates.find? (fun t => t.id == workflowTemplateId) = some w →
      w.status = TemplateStatus.ACTIVE → w.steps.length = 0 →
      createProcess templates workflowTemplateId creatorId now newProcessId =
        Except.error (ApiError.ValidationError "Workflow has no steps defined")) := by
  refine ⟨?_, ?_, ?_⟩
  · intro hfindw
    exact createProcess_err_notfound templates workflowTemplateId creatorId now
      newProcessId hfindw
  · intro w hfindw hact
    exact createProcess_err_inactive templates workflowTemplateId creatorId now
      newProcessId w hfindw hact
  · intro w hfindw hact hlen
    exact createProcess_err_nosteps templates workflowTemplateId creatorId now
      newProcessId w hfindw hact hlen

/-- Draft template with one approval step. -/
def wDraft : WorkflowTemplate :=
  { id := 5, status := TemplateStatus.DRAFT, steps := [sA1],
    hasFormSchema := false }

/-- Active template with no steps. -/
def wEmptyActive : WorkflowTemplate :=
  { id := 6, status := TemplateStatus.ACTIVE, steps := [],
    hasFormSchema := false }

/-- C7 witness: the three createProcess failures on concrete inputs. -/
theorem createProcess_precondition_errors_witness :
    createProcess [] 1 5 100 7 =
      Except.error (ApiError.NotFoundError "Workflow not found") ∧
    createProcess [wDraft] 5 5 100 7 =
      Except.error (ApiError.ValidationError "Workflow is not active") ∧
    createProcess [wEmptyActive] 6 5 100 7 =
      Except.error (ApiError.ValidationError "Workflow has no steps defined") :=
  ⟨(createProcess_precondition_errors [] 1 5 100 7).1 (by decide),
   (createProcess_precondition_errors [wDraft] 5 5 100 7).2.1 wDraft
     (by decide) (by decide),
   (createProcess_precondition_errors [wEmptyActive] 6 5 100 7).2.2 wEmptyActive
     (by decide) (by decide) (by decide)⟩

/-- C9: activating a template with zero steps, or with a FORM step and
no form schema, fails with ValidationError (the pure transition yields
no updated record, so the status is unchanged); the guards apply only
when the requested status is ACTIVE, so setting DRAFT or ARCHIVED
succeeds unconditionally for an existing template. -/
theorem setTemplateStatus_activation_guards (templates : List WorkflowTemplate)
    (id : Nat) (w : WorkflowTemplate)
    (hfindw : templates.find? (fun t => t.id == id) = some w) :
    (w.steps.length = 0 →
      setTemplateStatus templates id TemplateStatus.ACTIVE =
        Except.error (ApiError.ValidationError
          "Workflow must have at least one step to be activated")) ∧
    ((w.steps.any (fun s => s.stepType == StepType.FORM)) = true →
      w.hasFormSchema = false →
      setTemplateStatus templates id TemplateStatus.ACTIVE =
        Except.error (ApiError.ValidationError
          "Workflow with form step must have a form schema defined")) ∧
    (∀ ns, ns = TemplateStatus.DRAFT ∨ ns = TemplateStatus.ARCHIVED →
      setTemplateStatus templates id ns =
        Except.ok (templates.map (fun t =>
          if t.id = id then { t with status := ns } else t))) := by
  refine ⟨?_, ?_, ?_⟩
  · intro hlen
    unfold setTemplateStatus
    simp [hfindw, hlen]
  · intro hany hschema
    have hne : w.steps.length ≠ 0 := by
      intro h0
      rw [List.length_eq_zero] at h0
      rw [h0] at hany
      simp at hany
    unfold setTemplateStatus
    simp [hfindw, hany, hschema, hne]
  · intro ns hns
    rcases hns with hns | hns
    · subst hns
      unfold setTemplateStatus
      simp [hfindw]
    · subst hns
      unfold setTemplateStatus
      simp [hfindw]

/-- Draft template with no steps at all. -/
def wNoSteps : WorkflowTemplate :=
  { id := 20, status := TemplateStatus.DRAFT, steps := [],
    hasFormSchema := false }

/-- Draft template with a form step and no form schema. -/
def wFormNoSchema : WorkflowTemplate :=
  { id := 21, status := TemplateStatus.DRAFT, steps := [sF1],
    hasFormSchema := false }

/-- C9 witness: both activation failures and an unguarded ARCHIVED
transition on concrete templates. -/
theorem setTemplateStatus_activation_guards_witness :
    setTemplateStatus [wNoSteps] 20 TemplateStatus.ACTIVE =
      Except.error (ApiError.ValidationError
        "Workflow must have at least one step to be activated") ∧
    setTemplateStatus [wFormNoSchema] 21 TemplateStatus.ACTIVE =
      Except.error (ApiError.ValidationError
        "Workflow with form step must have a form schema defined") ∧
    setTemplateStatus [wFormNoSchema] 21 TemplateStatus.ARCHIVED =
      Except.ok [{ wFormNoSchema with status := TemplateStatus.ARCHIVED }] :=
  ⟨(setTemplateStatus_activation_guards [wNoSteps] 20 wNoSteps (by decide)).1
     (by decide),
   (setTemplateStatus_activation_guards [wFormNoSchema] 21 wFormNoSchema
     (by decide)).2.1 (by decide) (by decide),
   (setTemplateStatus_activation_guards [wFormNoSchema] 21 wFormNoSchema
     (by decide)).2.2 TemplateStatus.ARCHIVED (Or.inr rfl)⟩
